import Mathlib

/-!
Verification of the aichat provider-client layer (claude.rs, ernie.rs,
vertexai.rs, ollama.rs) against its natural-language specification.

The wire bodies are `serde_json::Value` trees; we embed them as an inductive
`Json` type.  Numbers are modelled as integers (every number the clients read
or write goes through `as_i64`/integer literals).  `serde_json`'s default map
is ordered; we keep fields as an association list in insertion order, which is
faithful for every property stated here (none depends on key ordering of the
serialized output).
-/

set_option autoImplicit false

namespace Aichat

/-- Shallow embedding of `serde_json::Value`. -/
inductive Json where
  | null
  | bool (b : Bool)
  | num (n : Int)
  | str (s : String)
  | arr (xs : List Json)
  | obj (fields : List (String × Json))

namespace Json

/-- `value["key"]` on a `serde_json::Value`: yields the field of an object,
`Null` otherwise (serde's `Index<&str>` for `Value`). -/
def get : Json → String → Json
  | .obj fs, k => match fs.lookup k with
    | some v => v
    | none => .null
  | _, _ => .null

/-- `value[i]` on a `serde_json::Value`: yields the element of an array,
`Null` otherwise (serde's `Index<usize>` for `Value`). -/
def idx : Json → Nat → Json
  | .arr xs, i => xs.getD i .null
  | _, _ => .null

/-- `Value::as_str`. -/
def asStr? : Json → Option String
  | .str s => some s
  | _ => none

/-- `Value::as_number` composed with `Number::as_i64` (numbers are modelled
as integers, on which `as_i64` is total). -/
def asNum? : Json → Option Int
  | .num n => some n
  | _ => none

/-- `Value::as_object`, as the field list. -/
def asObj? : Json → Option (List (String × Json))
  | .obj fs => some fs
  | _ => none

/-- Insert-or-overwrite of a field, as `body["key"] = v` does on an object
value (existing key keeps its position, new key is appended). -/
def setField : List (String × Json) → String → Json → List (String × Json)
  | [], k, v => [(k, v)]
  | (k', v') :: rest, k, v =>
    if k' = k then (k, v) :: rest else (k', v') :: setField rest k v

/-- `body["key"] = v` on a `serde_json::Value` known to be an object (the only
case the clients exercise); other values are returned unchanged. -/
def setKey : Json → String → Json → Json
  | .obj fs, k, v => .obj (setField fs k v)
  | j, _, _ => j

/-- `body[k1][k2] = v` where `body[k1]` is an object (the nested
`generationConfig` / `options` updates). -/
def setIn (j : Json) (k1 k2 : String) (v : Json) : Json :=
  j.setKey k1 ((j.get k1).setKey k2 v)

/-- Whether an object value carries the given key. -/
def hasKey : Json → String → Bool
  | .obj fs, k => fs.any (fun p => p.1 = k)
  | _, _ => false

end Json

/-! ### String helpers mirroring the Rust `str` operations used by the code -/

/-- `str::split_once` on character lists: split at the first occurrence of
`sep`, returning the parts before and after it. -/
def splitOnceL (sep : List Char) : List Char → Option (List Char × List Char)
  | [] => if sep.isEmpty then some ([], []) else none
  | c :: rest =>
    if sep.isPrefixOf (c :: rest) then some ([], (c :: rest).drop sep.length)
    else match splitOnceL sep rest with
      | some (a, b) => some (c :: a, b)
      | none => none

/-- `url.strip_prefix("data:").and_then(|v| v.split_once(";base64,"))`:
the inline-image classification shared by all the body builders. -/
def dataUriParts (url : String) : Option (String × String) :=
  if ("data:".data).isPrefixOf url.data then
    (splitOnceL (";base64,".data) (url.data.drop 5)).map
      (fun p => (String.mk p.1, String.mk p.2))
  else none

/-- Rust string escaping as used by `Debug` / serde output for the characters
that can occur in the inputs we quantify over. -/
def escChar (c : Char) : List Char :=
  if c = '"' then ['\\', '"']
  else if c = '\\' then ['\\', '\\']
  else if c = '\n' then ['\\', 'n']
  else if c = '\t' then ['\\', 't']
  else if c = '\r' then ['\\', 'r']
  else [c]

def escapeStr (s : String) : String :=
  String.mk (s.data.flatMap escChar)

/-- Rust `Debug` for a `String`: quoted and escaped. -/
def rustDebugStr (s : String) : String :=
  "\"" ++ escapeStr s ++ "\""

/-- `[slice]::join` / the separator folding of Rust's joins. -/
def joinSep (sep : String) : List String → String
  | [] => ""
  | [x] => x
  | x :: y :: xs => x ++ sep ++ joinSep sep (y :: xs)

/-- Rust `Debug` for a `Vec<String>`: `["a", "b"]`. -/
def rustDebugList (l : List String) : String :=
  "[" ++ joinSep ", " (l.map rustDebugStr) ++ "]"

/-! ### Message model

The `Message` type and its serde serialization live in `src/client/message.rs`,
which is not part of the provided sources; they are modelled from the spec's
data model section. -/

/-- Modelled from the spec: `role: one of (system, user, assistant)`. -/
inductive MessageRole where
  | system
  | user
  | assistant
  deriving Repr, DecidableEq

/-- Modelled from the spec: `ContentPart` is a tagged union `Text(text)` or
`ImageUrl(url)` where `url` is a `data:` URI or an external network URL. -/
inductive MessageContentPart where
  | text (text : String)
  | imageUrl (url : String)
  deriving Repr, DecidableEq

/-- Modelled from the spec: `content: Text(string) | Array(sequence of
ContentPart)`. -/
inductive MessageContent where
  | text (s : String)
  | array (parts : List MessageContentPart)
  deriving Repr, DecidableEq

structure Message where
  role : MessageRole
  content : MessageContent
  deriving Repr, DecidableEq

/-- Modelled from the spec: `SendData` carries the ordered messages, the two
optional sampling parameters and the stream flag.  The `f64` sampling values
are modelled as their JSON numbers (no claim depends on float arithmetic). -/
structure SendData where
  messages : List Message
  temperature : Option Int
  top_p : Option Int
  stream : Bool
  deriving Repr, DecidableEq

/-- The subset of the `Model` descriptor the body builders read. -/
structure Model where
  name : String
  max_input_tokens : Option Int
  max_output_tokens : Option Int
  deriving Repr, DecidableEq

def roleStr : MessageRole → String
  | .system => "system"
  | .user => "user"
  | .assistant => "assistant"

/-- Modelled from the spec: serde wire serialization of a content part
(OpenAI-style tagged objects, as consumed by providers that serialize the
message list wholesale). -/
def partToJson : MessageContentPart → Json
  | .text t => .obj [("type", .str "text"), ("text", .str t)]
  | .imageUrl u => .obj [("type", .str "image_url"), ("image_url", .obj [("url", .str u)])]

def contentToJson : MessageContent → Json
  | .text s => .str s
  | .array parts => .arr (parts.map partToJson)

/-- Modelled from the spec: serde wire serialization of a `Message`. -/
def messageToJson (m : Message) : Json :=
  .obj [("role", .str (roleStr m.role)), ("content", contentToJson m.content)]

/-- Modelled from the spec: some providers accept a dedicated `system` field,
"extracted from the message list and removed"; the extraction takes the
leading system-role message's text out of the list and returns it. -/
def extract_sytem_message (msgs : List Message) : Option String × List Message :=
  match msgs with
  | ⟨.system, .text s⟩ :: rest => (some s, rest)
  | _ => (none, msgs)

/-- Modelled from the spec: providers whose wire format has no system slot
fold the system message into the first user turn, prepending its text to that
message's content ("patched"). -/
def patch_system_message (msgs : List Message) : List Message :=
  match msgs with
  | ⟨.system, .text s⟩ :: ⟨r, .text t⟩ :: rest => ⟨r, .text (s ++ t)⟩ :: rest
  | ⟨.system, .text s⟩ :: ⟨r, .array parts⟩ :: rest =>
      ⟨r, .array (.text s :: parts)⟩ :: rest
  | _ => msgs

/-! ### Body builders -/

/-- One content part of a Claude message (claude.rs, the part match inside
`build_body`): text parts become tagged text objects, `data:`-URI images
become base64 source objects, anything else becomes a bare `url` object (and
is recorded as a network image, below). -/
def claude_part_json (p : MessageContentPart) : Json :=
  match p with
  | .text t => .obj [("type", .str "text"), ("text", .str t)]
  | .imageUrl url =>
    match dataUriParts url with
    | some (mime_type, d) =>
      .obj [("type", .str "image"),
            ("source", .obj [("type", .str "base64"),
                             ("media_type", .str mime_type),
                             ("data", .str d)])]
    | none => .obj [("url", .str url)]

/-- The urls pushed onto `network_image_urls` by one part. -/
def part_network_url (p : MessageContentPart) : Option String :=
  match p with
  | .text _ => none
  | .imageUrl url =>
    match dataUriParts url with
    | some _ => none
    | none => some url

def content_network_urls (c : MessageContent) : List String :=
  match c with
  | .text _ => []
  | .array parts => parts.filterMap part_network_url

/-- All network-image urls collected while mapping a message list, in
traversal order. -/
def network_image_urls (msgs : List Message) : List String :=
  msgs.flatMap (fun m => content_network_urls m.content)

/-- The error message of the `bail!` on network images, shared verbatim by
claude.rs, vertexai.rs and ollama.rs. -/
def networkImagesErr (urls : List String) : String :=
  "The model does not support network images: " ++ rustDebugList urls

/-- claude.rs `build_body`. -/
def claude_build_body (data : SendData) (model : Model) : Except String Json :=
  let (system_message, messages) := extract_sytem_message data.messages
  let msgsJson : List Json := messages.map (fun m =>
    let content : List Json :=
      match m.content with
      | .text t => [.obj [("type", .str "text"), ("text", .str t)]]
      | .array list => list.map claude_part_json
    Json.obj [("role", .str (roleStr m.role)), ("content", .arr content)])
  let networkUrls := network_image_urls messages
  if networkUrls.isEmpty then
    let max_tokens := model.max_output_tokens.getD 4096
    let body := Json.obj [("model", .str model.name),
                          ("max_tokens", .num max_tokens),
                          ("messages", .arr msgsJson)]
    let body := match system_message with
      | some s => body.setKey "system" (.str s)
      | none => body
    let body := match data.temperature with
      | some v => body.setKey "temperature" (.num v)
      | none => body
    let body := match data.top_p with
      | some v => body.setKey "top_p" (.num v)
      | none => body
    let body := if data.stream then body.setKey "stream" (.bool true) else body
    .ok body
  else
    .error (networkImagesErr networkUrls)

/-- ernie.rs `build_body` (infallible: Ernie serializes the patched message
list wholesale and performs no image classification). -/
def ernie_build_body (data : SendData) (model : Model) : Json :=
  let messages := patch_system_message data.messages
  let body := Json.obj [("messages", .arr (messages.map messageToJson))]
  let body := match data.temperature with
    | some v => body.setKey "temperature" (.num v)
    | none => body
  let body := match data.top_p with
    | some v => body.setKey "top_p" (.num v)
    | none => body
  let body := match model.max_output_tokens with
    | some v => body.setKey "max_output_tokens" (.num v)
    | none => body
  let body := if data.stream then body.setKey "stream" (.bool true) else body
  body

/-- One part of a VertexAI content entry (vertexai.rs, the part match inside
`build_body`). -/
def vertexai_part_json (p : MessageContentPart) : Json :=
  match p with
  | .text t => .obj [("text", .str t)]
  | .imageUrl url =>
    match dataUriParts url with
    | some (mime_type, d) =>
      .obj [("inline_data", .obj [("mime_type", .str mime_type), ("data", .str d)])]
    | none => .obj [("url", .str url)]

def vertexai_role (r : MessageRole) : String :=
  match r with
  | .user => "user"
  | _ => "model"

def vertexai_content_json (m : Message) : Json :=
  match m.content with
  | .text t =>
    .obj [("role", .str (vertexai_role m.role)), ("parts", .arr [.obj [("text", .str t)]])]
  | .array list =>
    .obj [("role", .str (vertexai_role m.role)), ("parts", .arr (list.map vertexai_part_json))]

/-- vertexai.rs `build_body`. -/
def vertexai_build_body (data : SendData) (model : Model)
    (block_threshold : Option String) : Except String Json :=
  let messages := patch_system_message data.messages
  let contents : List Json := messages.map vertexai_content_json
  let networkUrls := network_image_urls messages
  if networkUrls.isEmpty then
    let body := Json.obj [("contents", .arr contents), ("generationConfig", .obj [])]
    let body := match block_threshold with
      | some t =>
        body.setKey "safetySettings" (.arr [
          .obj [("category", .str "HARM_CATEGORY_HARASSMENT"), ("threshold", .str t)],
          .obj [("category", .str "HARM_CATEGORY_HATE_SPEECH"), ("threshold", .str t)],
          .obj [("category", .str "HARM_CATEGORY_SEXUALLY_EXPLICIT"), ("threshold", .str t)],
          .obj [("category", .str "HARM_CATEGORY_DANGEROUS_CONTENT"), ("threshold", .str t)]])
      | none => body
    let body := match model.max_output_tokens with
      | some v => body.setIn "generationConfig" "maxOutputTokens" (.num v)
      | none => body
    let body := match data.temperature with
      | some v => body.setIn "generationConfig" "temperature" (.num v)
      | none => body
    let body := match data.top_p with
      | some v => body.setIn "generationConfig" "topP" (.num v)
      | none => body
    .ok body
  else
    .error (networkImagesErr networkUrls)

/-- ollama.rs, the single pass over an `Array` content's parts inside
`build_body`: collects the text parts, the inline-image base64 payloads
(mime type discarded) and the network urls, each in traversal order. -/
def ollama_scan_parts : List MessageContentPart → List String × List String × List String
  | [] => ([], [], [])
  | .text t :: rest =>
    let (c, i, n) := ollama_scan_parts rest
    (t :: c, i, n)
  | .imageUrl u :: rest =>
    let (c, i, n) := ollama_scan_parts rest
    match dataUriParts u with
    | some (_, d) => (c, d :: i, n)
    | none => (c, i, u :: n)

def ollama_message_json (m : Message) : Json :=
  match m.content with
  | .text t => .obj [("role", .str (roleStr m.role)), ("content", .str t)]
  | .array list =>
    let (content, images, _) := ollama_scan_parts list
    .obj [("role", .str (roleStr m.role)),
          ("content", .str (joinSep "\n\n" content)),
          ("images", .arr (images.map Json.str))]

def ollama_network_urls (msgs : List Message) : List String :=
  msgs.flatMap (fun m =>
    match m.content with
    | .text _ => []
    | .array list => (ollama_scan_parts list).2.2)

/-- ollama.rs `build_body`. -/
def ollama_build_body (data : SendData) (model : Model) : Except String Json :=
  let msgsJson := data.messages.map ollama_message_json
  let networkUrls := ollama_network_urls data.messages
  if networkUrls.isEmpty then
    let body := Json.obj [("model", .str model.name),
                          ("messages", .arr msgsJson),
                          ("stream", .bool data.stream),
                          ("options", .obj [])]
    let body := match model.max_output_tokens with
      | some v => body.setIn "options" "num_predict" (.num v)
      | none => body
    let body := match data.temperature with
      | some v => body.setIn "options" "temperature" (.num v)
      | none => body
    let body := match data.top_p with
      | some v => body.setIn "options" "top_p" (.num v)
      | none => body
    .ok body
  else
    .error (networkImagesErr networkUrls)

/-! ### Serialization of `Json` (serde's compact `Display`, used by the
`format!`/`bail!` interpolations of a `Value`) -/

mutual

def jsonStr : Json → String
  | .null => "null"
  | .bool true => "true"
  | .bool false => "false"
  | .num n => toString n
  | .str s => "\"" ++ escapeStr s ++ "\""
  | .arr xs => "[" ++ jsonStrList xs ++ "]"
  | .obj fs => "\x7b" ++ jsonStrFields fs ++ "\x7d"

def jsonStrList : List Json → String
  | [] => ""
  | [x] => jsonStr x
  | x :: y :: xs => jsonStr x ++ "," ++ jsonStrList (y :: xs)

def jsonStrFields : List (String × Json) → String
  | [] => ""
  | [(k, v)] => "\"" ++ escapeStr k ++ "\":" ++ jsonStr v
  | (k, v) :: f :: fs => "\"" ++ escapeStr k ++ "\":" ++ jsonStr v ++ "," ++ jsonStrFields (f :: fs)

end

/-! ### Error classifiers and single-shot consumers

The classifiers that clear a cached token on an auth failure are modelled as
state transformers over that token cache, returning the new cache next to the
classification result. -/

/-- claude.rs `catch_error`.  `data["error"]` is indexed as a `Value`
(missing key yields `Null`), but `error["type"]` / `error["message"]` index a
`serde_json::Map`, which panics on a missing key; the panic is modelled as
`none`. -/
def claude_catch_error (data : Json) (status : Nat) : Option (Except String Unit) :=
  match (data.get "error").asObj? with
  | some fields =>
    match fields.lookup "type", fields.lookup "message" with
    | some tj, some mj =>
      match tj.asStr?, mj.asStr? with
      | some ty, some msg => some (.error (msg ++ " (type: " ++ ty ++ ")"))
      | _, _ =>
        some (.error ("Invalid response, status: " ++ toString status ++ ", data: " ++ jsonStr data))
    | _, _ => none
  | none =>
    some (.error ("Invalid response, status: " ++ toString status ++ ", data: " ++ jsonStr data))

/-- claude.rs `send_message`, as a function of the response status and decoded
body (`none` models a classifier panic). -/
def claude_send_message (status : Nat) (data : Json) : Option (Except String String) :=
  if status ≠ 200 then
    match claude_catch_error data status with
    | some (.error e) => some (.error e)
    | some (.ok ()) => none
    | none => none
  else
    match (((data.get "content").idx 0).get "text").asStr? with
    | some s => some (.ok s)
    | none => some (.error ("Invalid response data: " ++ jsonStr data))

/-- ernie.rs `catch_error`: recognizes a top-level `error_code`/`error_msg`
envelope; error code 110 clears the process-wide `ACCESS_TOKEN`.  Returns the
new token cache and the classification (`ok` when the envelope is absent). -/
def ernie_catch_error (cache : Option String) (data : Json) :
    Option String × Except String Unit :=
  match (data.get "error_code").asNum?, (data.get "error_msg").asStr? with
  | some code, some msg =>
    ((if code = 110 then none else cache),
     .error (msg ++ " (error_code: " ++ toString code ++ ")"))
  | _, _ => (cache, .ok ())

/-- ernie.rs `send_message`: the status is never consulted; every decoded body
passes through `catch_error`, then `data["result"]` is extracted. -/
def ernie_send_message (cache : Option String) (data : Json) :
    Option String × Except String String :=
  match ernie_catch_error cache data with
  | (cache', .error e) => (cache', .error e)
  | (cache', .ok ()) =>
    match (data.get "result").asStr? with
    | some s => (cache', .ok s)
    | none => (cache', .error ("Unexpected response " ++ jsonStr data))

/-- vertexai.rs `catch_error`: recognizes `data[0]["error"]` with string
`status`/`message` fields; status `UNAUTHENTICATED` resets the process-wide
`ACCESS_TOKEN` to its empty initial value.  Always fails. -/
def vertexai_catch_error (tok : String × Int) (data : Json) (status : Nat) :
    (String × Int) × String :=
  match ((data.idx 0).get "error").asObj? with
  | some fields =>
    match (fields.lookup "status").bind Json.asStr?,
          (fields.lookup "message").bind Json.asStr? with
    | some st, some msg =>
      ((if st = "UNAUTHENTICATED" then ("", 0) else tok),
       msg ++ " (status: " ++ st ++ ")")
    | _, _ =>
      (tok, "Invalid response, status: " ++ toString status ++ ", data: " ++ jsonStr data)
  | none =>
    (tok, "Invalid response, status: " ++ toString status ++ ", data: " ++ jsonStr data)

/-- ollama.rs `catch_error`: a top-level string `error` field is surfaced
verbatim; otherwise the generic message.  Always fails. -/
def ollama_catch_error (data : Json) (status : Nat) : Except String Unit :=
  match (data.get "error").asStr? with
  | some e => .error e
  | none =>
    .error ("Invalid response, status: " ++ toString status ++ ", data: " ++ jsonStr data)

/-- ollama.rs `send_message`. -/
def ollama_send_message (status : Nat) (data : Json) : Except String String :=
  if status ≠ 200 then
    match ollama_catch_error data status with
    | .error e => .error e
    | .ok () => .error ""
  else
    match ((data.get "message").get "content").asStr? with
    | some s => .ok s
    | none => .error ("Invalid response data: " ++ jsonStr data)

/-! ### Streaming consumers

An SSE stream is modelled as the list of delivered `Ok` events (`Open` and
`Message`); a `Message` carries its already-JSON-decoded `data` payload (the
`serde_json::from_str` boundary).  The `ReplyHandler` sink capability (not in
the provided sources; the spec's Reply Sink accepts text fragments in arrival
order) is modelled as the accumulated list of fragments, appended on each
`handler.text` call. -/

inductive SseEvent where
  | opened
  | message (data : Json)

/-- claude.rs: the text extracted from one SSE message — only events of type
`content_block_delta` carrying a `delta.text` string produce a fragment. -/
def claude_event_text (data : Json) : Option String :=
  match (data.get "type").asStr? with
  | some ty =>
    if ty = "content_block_delta" then ((data.get "delta").get "text").asStr?
    else none
  | none => none

/-- claude.rs `send_message_streaming`, restricted to the delivered events:
the loop body, with the sink as an accumulator. -/
def claude_stream_run (events : List SseEvent) (acc : List String) : List String :=
  match events with
  | [] => acc
  | .opened :: rest => claude_stream_run rest acc
  | .message d :: rest =>
    match claude_event_text d with
    | some t => claude_stream_run rest (acc ++ [t])
    | none => claude_stream_run rest acc

/-- ernie.rs: the text extracted from one SSE message — any event whose
payload carries a string `result` field. -/
def ernie_event_text (data : Json) : Option String :=
  (data.get "result").asStr?

/-- ernie.rs `send_message_streaming`, restricted to the delivered events. -/
def ernie_stream_run (events : List SseEvent) (acc : List String) : List String :=
  match events with
  | [] => acc
  | .opened :: rest => ernie_stream_run rest acc
  | .message d :: rest =>
    match ernie_event_text d with
    | some t => ernie_stream_run rest (acc ++ [t])
    | none => ernie_stream_run rest acc

/-! ### Credential managers -/

/-- vertexai.rs `prepare_access_token` as a pure transition: `tok` is the
`(String, i64)` static (`("" , 0)` initially), `now` the timestamp of the
expiry check, `fetchTime` the timestamp at which the freshly fetched token's
expiry is computed, `fetched` the `(token, expires_in)` pair a fetch would
return.  The second component counts `fetch_access_token` invocations. -/
def vertexai_prepare_access_token (tok : String × Int) (now fetchTime : Int)
    (fetched : String × Int) : (String × Int) × Nat :=
  if tok.1 = "" ∨ tok.2 < now then
    ((fetched.1, fetchTime + fetched.2), 1)
  else
    (tok, 0)

/-- ernie.rs `prepare_access_token` as a pure transition on the
`Mutex<Option<String>>` cache: a cached token (no expiry is stored) is always
reused; an absent one triggers one fetch whose result is stored. -/
def ernie_prepare_access_token (cache : Option String) (fetched : String) :
    Option String × Nat :=
  match cache with
  | some t => (some t, 0)
  | none => (some fetched, 1)

/-! ### Interleaving model of the ernie token fetch

Ernie's `prepare_access_token` takes the `ACCESS_TOKEN` mutex once for the
`is_none` check (the guard is a dropped temporary), releases it, fetches with
no lock held, and takes the mutex again to store.  Each lock/unlock pair
brackets a single read or write, so each of the three phases is one atomic
step of a thread; the lock is not held across the check-fetch-store sequence.
VertexAI's `static mut` cache has no lock at all and interleaves at least as
freely. -/

structure TokenCacheState where
  cache : Option String
  fetchCount : Nat
  deriving Repr, DecidableEq

/-- The program counter of one thread executing `prepare_access_token`. -/
inductive FetchPc where
  | start
  | fetching
  | storing
  | done
  deriving Repr, DecidableEq

/-- One atomic step of a thread: the locked `is_none` check, the unlocked
fetch, or the locked store. -/
def fetchStep (s : TokenCacheState) (pc : FetchPc) (tok : String) :
    TokenCacheState × FetchPc :=
  match pc with
  | .start => if s.cache.isSome then (s, .done) else (s, .fetching)
  | .fetching => ({ s with fetchCount := s.fetchCount + 1 }, .storing)
  | .storing => ({ s with cache := some tok }, .done)
  | .done => (s, .done)

/-- Run two threads of `prepare_access_token` under a schedule (`false` steps
thread 1, `true` steps thread 2). -/
def fetchRun (sched : List Bool) (s : TokenCacheState) (pc1 pc2 : FetchPc) :
    TokenCacheState :=
  match sched with
  | [] => s
  | false :: rest =>
    let (s', pc1') := fetchStep s pc1 "tokA"
    fetchRun rest s' pc1' pc2
  | true :: rest =>
    let (s', pc2') := fetchStep s pc2 "tokB"
    fetchRun rest s' pc1 pc2'

/-! ## Claims -/

/-- C1: For a `SendData` with a system message and one user message, each
provider puts the system content in exactly one place: Claude removes it from
the message list and stores it in the dedicated `system` field of the body
(the remaining message list is exactly the user turn); Ernie and VertexAI
have no `system` field and fold the system text into the first user turn,
whose content becomes the system text prepended to the user text.  The
content is never emitted in both places and never dropped. -/
theorem C1_system_message_placement (s u : String) (mdl : Model) :
    claude_build_body ⟨[⟨.system, .text s⟩, ⟨.user, .text u⟩], none, none, false⟩ mdl =
      .ok (Json.obj [("model", .str mdl.name),
                     ("max_tokens", .num (mdl.max_output_tokens.getD 4096)),
                     ("messages", .arr [Json.obj [("role", .str "user"),
                        ("content", .arr [Json.obj [("type", .str "text"), ("text", .str u)]])]]),
                     ("system", .str s)])
    ∧ (ernie_build_body ⟨[⟨.system, .text s⟩, ⟨.user, .text u⟩], none, none, false⟩ mdl).get
        "messages" =
        .arr [Json.obj [("role", .str "user"), ("content", .str (s ++ u))]]
    ∧ (ernie_build_body ⟨[⟨.system, .text s⟩, ⟨.user, .text u⟩], none, none, false⟩ mdl).hasKey
        "system" = false
    ∧ (vertexai_build_body ⟨[⟨.system, .text s⟩, ⟨.user, .text u⟩], none, none, false⟩ mdl
          none).map (fun b => b.get "contents") =
        .ok (.arr [Json.obj [("role", .str "user"),
                             ("parts", .arr [Json.obj [("text", .str (s ++ u))]])]])
    ∧ (vertexai_build_body ⟨[⟨.system, .text s⟩, ⟨.user, .text u⟩], none, none, false⟩ mdl
          none).map (fun b => b.hasKey "system") = .ok false := by
  rcases mdl with ⟨n, mi, mo⟩
  refine ⟨rfl, ?_, ?_, ?_, ?_⟩ <;> cases mo <;> rfl

/-! ### Substring infrastructure for the network-image error message -/

/-- Characters that the Rust `Debug` escaping renders as themselves. -/
def cleanForDebug (u : String) : Prop := ∀ c ∈ u.data, escChar c = [c]

instance (u : String) : Decidable (cleanForDebug u) :=
  List.decidableBAll _ u.data

theorem flatMap_escChar_of_clean (l : List Char) (h : ∀ c ∈ l, escChar c = [c]) :
    l.flatMap escChar = l := by
  induction l with
  | nil => rfl
  | cons c rest ih =>
    rw [List.flatMap_cons, h c (List.mem_cons_self c rest),
        ih (fun d hd => h d (List.mem_cons_of_mem c hd))]
    rfl

theorem escapeStr_data_of_clean (u : String) (h : cleanForDebug u) :
    (escapeStr u).data = u.data :=
  flatMap_escChar_of_clean u.data h

/-- Every element of a joined list occurs verbatim in the join. -/
theorem mem_infix_joinSep (sep : String) (l : List String) (u : String) (h : u ∈ l) :
    u.data <:+: (joinSep sep l).data := by
  induction l with
  | nil => cases h
  | cons x rest ih =>
    rcases List.mem_cons.mp h with rfl | hmem
    · cases rest with
      | nil => exact List.infix_rfl
      | cons y ys =>
        show u.data <:+: (u ++ sep ++ joinSep sep (y :: ys)).data
        rw [String.data_append, String.data_append]
        exact ⟨[], sep.data ++ (joinSep sep (y :: ys)).data, by simp⟩
    · cases rest with
      | nil => cases hmem
      | cons y ys =>
        have hin := ih hmem
        show u.data <:+: (x ++ sep ++ joinSep sep (y :: ys)).data
        rw [String.data_append, String.data_append]
        exact hin.trans ⟨x.data ++ sep.data, [], by simp⟩

theorem infix_rustDebugStr (u : String) (h : cleanForDebug u) :
    u.data <:+: (rustDebugStr u).data := by
  show u.data <:+: ("\"" ++ escapeStr u ++ "\"").data
  rw [String.data_append, String.data_append, escapeStr_data_of_clean u h]
  exact ⟨"\"".data, "\"".data, by simp⟩

/-- Every escape-free url in the list occurs verbatim in the network-image
error message. -/
theorem infix_networkImagesErr (urls : List String) (u : String) (hu : u ∈ urls)
    (hc : cleanForDebug u) : u.data <:+: (networkImagesErr urls).data := by
  have h1 : u.data <:+: (joinSep ", " (urls.map rustDebugStr)).data :=
    (infix_rustDebugStr u hc).trans
      (mem_infix_joinSep ", " (urls.map rustDebugStr) (rustDebugStr u)
        (List.mem_map_of_mem rustDebugStr hu))
  show u.data <:+:
    ("The model does not support network images: " ++
      ("[" ++ joinSep ", " (urls.map rustDebugStr) ++ "]")).data
  rw [String.data_append, String.data_append, String.data_append]
  exact h1.trans
    ⟨"The model does not support network images: ".data ++ "[".data, "]".data, by simp⟩

/-- C2: whenever the collected network-image urls of a request are non-empty,
`build_body` of each provider that forbids them (Claude, Ollama, VertexAI)
returns an error instead of a wire body, and the error text contains every
offending url verbatim (for urls free of characters that `Debug` escapes). -/
theorem C2_network_image_rejection (msgs : List Message) (mdl : Model)
    (t p : Option Int) (st : Bool) :
    (network_image_urls (extract_sytem_message msgs).2 ≠ [] →
      claude_build_body ⟨msgs, t, p, st⟩ mdl =
        .error (networkImagesErr (network_image_urls (extract_sytem_message msgs).2)) ∧
      ∀ u ∈ network_image_urls (extract_sytem_message msgs).2, cleanForDebug u →
        u.data <:+: (networkImagesErr (network_image_urls (extract_sytem_message msgs).2)).data)
    ∧ (ollama_network_urls msgs ≠ [] →
      ollama_build_body ⟨msgs, t, p, st⟩ mdl =
        .error (networkImagesErr (ollama_network_urls msgs)) ∧
      ∀ u ∈ ollama_network_urls msgs, cleanForDebug u →
        u.data <:+: (networkImagesErr (ollama_network_urls msgs)).data)
    ∧ (network_image_urls (patch_system_message msgs) ≠ [] →
      vertexai_build_body ⟨msgs, t, p, st⟩ mdl none =
        .error (networkImagesErr (network_image_urls (patch_system_message msgs))) ∧
      ∀ u ∈ network_image_urls (patch_system_message msgs), cleanForDebug u →
        u.data <:+: (networkImagesErr (network_image_urls (patch_system_message msgs))).data) := by
  refine ⟨fun h => ⟨?_, fun u hu hc => infix_networkImagesErr _ u hu hc⟩,
          fun h => ⟨?_, fun u hu hc => infix_networkImagesErr _ u hu hc⟩,
          fun h => ⟨?_, fun u hu hc => infix_networkImagesErr _ u hu hc⟩⟩
  · simp only [claude_build_body]
    rw [if_neg]
    simp [h]
  · simp only [ollama_build_body]
    rw [if_neg]
    simp [h]
  · simp only [vertexai_build_body]
    rw [if_neg]
    simp [h]

/-- Witness for C2 at a one-message request carrying a single network image. -/
theorem C2_network_image_rejection_witness :
    network_image_urls
      (extract_sytem_message [⟨.user, .array [.imageUrl "http://images.example/cat.png"]⟩]).2 ≠ [] ∧
    (claude_build_body
        ⟨[⟨.user, .array [.imageUrl "http://images.example/cat.png"]⟩], none, none, false⟩
        ⟨"m", none, none⟩ =
      .error (networkImagesErr (network_image_urls
        (extract_sytem_message [⟨.user, .array [.imageUrl "http://images.example/cat.png"]⟩]).2)) ∧
    ∀ u ∈ network_image_urls
        (extract_sytem_message [⟨.user, .array [.imageUrl "http://images.example/cat.png"]⟩]).2,
      cleanForDebug u →
      u.data <:+: (networkImagesErr (network_image_urls
        (extract_sytem_message [⟨.user, .array [.imageUrl "http://images.example/cat.png"]⟩]).2)).data) :=
  ⟨by decide,
   (C2_network_image_rejection [⟨.user, .array [.imageUrl "http://images.example/cat.png"]⟩]
      ⟨"m", none, none⟩ none none false).1 (by decide)⟩

/-- C3: the check-then-fetch-then-store sequence is NOT mutually exclusive.
Ernie's mutex is released between the `is_none` check and the store (each
lock/unlock brackets a single read or write), and VertexAI's `static mut`
cache has no lock at all; under the interleaving check₁ check₂ fetch₁ fetch₂
store₁ store₂ from an empty cache, two concurrent `prepare_access_token`
calls both pass the check and two fetches are performed, against the claimed
single fetch.  A fully serialized schedule does perform exactly one fetch. -/
theorem C3_duplicate_fetch_interleaving :
    fetchRun [false, true, false, true, false, true] ⟨none, 0⟩ .start .start =
      ⟨some "tokB", 2⟩ ∧
    fetchRun [false, false, false, true] ⟨none, 0⟩ .start .start =
      ⟨some "tokA", 1⟩ := by
  decide

/-- C4: sequentially, a cached token that is not past its stored expiry
instant (VertexAI) or that is simply present (Ernie caches no expiry) is
reused with no fetch; an absent token — empty string for VertexAI, `None` for
Ernie — or one past its expiry triggers exactly one fetch whose result is
stored in the cache (VertexAI stamps it with the fetch time plus
`expires_in`). -/
theorem C4_token_cache_reuse_and_refetch :
    (∀ (tok : String × Int) (now fetchTime : Int) (f : String × Int),
      tok.1 ≠ "" → ¬ tok.2 < now →
      vertexai_prepare_access_token tok now fetchTime f = (tok, 0))
    ∧ (∀ (tok : String × Int) (now fetchTime : Int) (f : String × Int),
      tok.1 = "" ∨ tok.2 < now →
      vertexai_prepare_access_token tok now fetchTime f = ((f.1, fetchTime + f.2), 1))
    ∧ (∀ t fetched : String, ernie_prepare_access_token (some t) fetched = (some t, 0))
    ∧ (∀ fetched : String, ernie_prepare_access_token none fetched = (some fetched, 1)) := by
  refine ⟨fun tok now ft f h1 h2 => ?_, fun tok now ft f h => ?_,
          fun t fetched => rfl, fun fetched => rfl⟩
  · unfold vertexai_prepare_access_token
    rw [if_neg]
    push_neg
    exact ⟨h1, le_of_not_lt h2⟩
  · unfold vertexai_prepare_access_token
    rw [if_pos h]

/-- Witness for C4: a live token at time 50 with expiry 100 is reused; the
empty initial token triggers a fetch stored with expiry 5 + 60. -/
theorem C4_token_cache_reuse_and_refetch_witness :
    (("t" : String) ≠ "" ∧ ¬ (100 : Int) < 50 ∧
      vertexai_prepare_access_token ("t", 100) 50 50 ("u", 60) = (("t", 100), 0))
    ∧ ((("" : String) = "" ∨ (0 : Int) < 5) ∧
      vertexai_prepare_access_token ("", 0) 5 5 ("u", 60) = (("u", 65), 1)) :=
  ⟨⟨by decide, by decide,
    C4_token_cache_reuse_and_refetch.1 ("t", 100) 50 50 ("u", 60) (by decide) (by decide)⟩,
   ⟨Or.inl rfl,
    C4_token_cache_reuse_and_refetch.2.1 ("", 0) 5 5 ("u", 60) (Or.inl rfl)⟩⟩

/-- Shared helper: Ernie's classifier is a no-op (token kept, no error) when
either envelope field is missing or mistyped. -/
theorem ernie_catch_error_unrecognized (cache : Option String) (d : Json)
    (h : (d.get "error_code").asNum? = none ∨ (d.get "error_msg").asStr? = none) :
    ernie_catch_error cache d = (cache, .ok ()) := by
  unfold ernie_catch_error
  rcases h with h | h
  · rw [h]
  · rw [h]
    cases (d.get "error_code").asNum? <;> rfl

/-- C5: Ernie's classifier clears the cached token exactly when the envelope's
`error_code` is 110, and VertexAI's exactly when the envelope's status string
is `UNAUTHENTICATED`, in both cases as part of returning the classified error;
any other recognized error leaves the cache unchanged, and an unrecognized
envelope leaves it unchanged as well (Ernie then reports no error, VertexAI
the generic message). -/
theorem C5_auth_failure_clears_cached_token :
    (∀ (cache : Option String) (n : Int) (msg : String),
      ernie_catch_error cache (.obj [("error_code", .num n), ("error_msg", .str msg)]) =
        ((if n = 110 then none else cache),
         .error (msg ++ " (error_code: " ++ toString n ++ ")")))
    ∧ (∀ (cache : Option String) (d : Json),
      (d.get "error_code").asNum? = none ∨ (d.get "error_msg").asStr? = none →
      ernie_catch_error cache d = (cache, .ok ()))
    ∧ (∀ (tok : String × Int) (st msg : String) (status : Nat),
      vertexai_catch_error tok
          (.arr [.obj [("error", .obj [("status", .str st), ("message", .str msg)])]]) status =
        ((if st = "UNAUTHENTICATED" then ("", 0) else tok),
         msg ++ " (status: " ++ st ++ ")"))
    ∧ (∀ (tok : String × Int) (d : Json) (status : Nat),
      ((d.idx 0).get "error").asObj? = none →
      vertexai_catch_error tok d status =
        (tok, "Invalid response, status: " ++ toString status ++ ", data: " ++ jsonStr d)) := by
  refine ⟨fun cache n msg => rfl, fun cache d h => ernie_catch_error_unrecognized cache d h,
          fun tok st msg status => rfl, fun tok d status h => ?_⟩
  unfold vertexai_catch_error
  rw [h]

/-- Witness for C5: a code-110 envelope clears a cached Ernie token; a body
with no envelope leaves it in place; an `UNAUTHENTICATED` VertexAI envelope
resets the token pair; a bodiless error yields the generic message. -/
theorem C5_auth_failure_clears_cached_token_witness :
    ernie_catch_error (some "tk") (.obj [("error_code", .num 110), ("error_msg", .str "auth")]) =
      (none, .error "auth (error_code: 110)")
    ∧ ((Json.obj []).get "error_code").asNum? = none
    ∧ ernie_catch_error (some "tk") (.obj []) = (some "tk", .ok ())
    ∧ vertexai_catch_error ("tk", 9) (.arr [.obj [("error",
        .obj [("status", .str "UNAUTHENTICATED"), ("message", .str "expired")])]]) 401 =
      (("", 0), "expired (status: UNAUTHENTICATED)")
    ∧ (((Json.str "x").idx 0).get "error").asObj? = none
    ∧ vertexai_catch_error ("tk", 9) (.str "x") 500 =
      (("tk", 9), "Invalid response, status: 500, data: \"x\"") :=
  ⟨by
    have h := C5_auth_failure_clears_cached_token.1 (some "tk") 110 "auth"
    simpa using h,
   by decide,
   C5_auth_failure_clears_cached_token.2.1 (some "tk") (.obj []) (Or.inl rfl),
   by
    have h := C5_auth_failure_clears_cached_token.2.2.1 ("tk", 9) "UNAUTHENTICATED" "expired" 401
    simpa using h,
   rfl,
   by
    have h := C5_auth_failure_clears_cached_token.2.2.2 ("tk", 9) (.str "x") 500 rfl
    simpa using h⟩

/-- C6 counterexample: Ernie's error classifier does not always return an
error on a non-success response.  On the body `{"detail":"oops"}` (no
`error_code`/`error_msg` envelope) the classifier returns success, and the
single-shot consumer — which never consults the HTTP status — then fails with
`Unexpected response {body}`, a message that does not contain the HTTP status
(here 500). -/
theorem C6_counterexample_ernie_classifier_ok :
    (ernie_catch_error (some "tk") (.obj [("detail", .str "oops")])).2 = .ok () ∧
    (ernie_send_message (some "tk") (.obj [("detail", .str "oops")])).2 =
      .error ("Unexpected response \x7b\"detail\":\"oops\"\x7d") ∧
    ¬ ("500".data <:+: ("Unexpected response \x7b\"detail\":\"oops\"\x7d").data) :=
  ⟨rfl, rfl, by decide⟩

/-- C6 (amended): Claude and Ollama check the status and route every
non-success body through their classifier, which always fails — Claude with
`{message} (type: {type})` on a recognized envelope, Ollama with the
envelope's `error` string alone (no kind), and both with the generic
`Invalid response, status: {status}, data: {raw}` otherwise.  Ernie ignores
the status and routes every decoded body through its classifier, which fails
only when both `error_code` and `error_msg` are present (message
`{error_msg} (error_code: {error_code})`); otherwise the consumer proceeds
and a missing `result` field yields `Unexpected response {raw}` without the
status. -/
theorem C6_single_shot_error_classification (status : Nat) (msg ty e : String)
    (cache : Option String) (n : Int) (d : Json) :
    (status ≠ 200 →
      claude_send_message status
          (.obj [("error", .obj [("type", .str ty), ("message", .str msg)])]) =
        some (.error (msg ++ " (type: " ++ ty ++ ")")))
    ∧ (status ≠ 200 → (d.get "error").asObj? = none →
      claude_send_message status d =
        some (.error ("Invalid response, status: " ++ toString status ++ ", data: " ++ jsonStr d)))
    ∧ (status ≠ 200 → ollama_send_message status (.obj [("error", .str e)]) = .error e)
    ∧ (status ≠ 200 → (d.get "error").asStr? = none →
      ollama_send_message status d =
        .error ("Invalid response, status: " ++ toString status ++ ", data: " ++ jsonStr d))
    ∧ (ernie_send_message cache (.obj [("error_code", .num n), ("error_msg", .str msg)])).2 =
        .error (msg ++ " (error_code: " ++ toString n ++ ")")
    ∧ ((d.get "error_code").asNum? = none ∨ (d.get "error_msg").asStr? = none →
      (d.get "result").asStr? = none →
      (ernie_send_message cache d).2 = .error ("Unexpected response " ++ jsonStr d)) := by
  refine ⟨fun h => ?_, fun h h2 => ?_, fun h => ?_, fun h h2 => ?_, rfl, fun h h2 => ?_⟩
  · simp [claude_send_message, h, claude_catch_error, Json.get, Json.asObj?, Json.asStr?,
          List.lookup]
  · unfold claude_send_message claude_catch_error
    rw [if_pos h, h2]
  · unfold ollama_send_message ollama_catch_error
    rw [if_pos h]
    rfl
  · unfold ollama_send_message ollama_catch_error
    rw [if_pos h, h2]
  · unfold ernie_send_message
    rw [ernie_catch_error_unrecognized cache d h, h2]

/-- Witness for C6 at status 500, envelopes `{"error":{"type":"auth",
"message":"bad key"}}` (Claude), `{"error":"boom"}` (Ollama) and an
envelope-free Ernie body. -/
theorem C6_single_shot_error_classification_witness :
    (500 : Nat) ≠ 200 ∧
    claude_send_message 500
        (.obj [("error", .obj [("type", .str "auth"), ("message", .str "bad key")])]) =
      some (.error "bad key (type: auth)") ∧
    ollama_send_message 500 (.obj [("error", .str "boom")]) = .error "boom" ∧
    ((Json.obj []).get "error_code").asNum? = none ∧
    ((Json.obj []).get "result").asStr? = none ∧
    (ernie_send_message none (.obj [])).2 = .error ("Unexpected response " ++ jsonStr (.obj [])) :=
  ⟨by decide,
   by
    have h := (C6_single_shot_error_classification 500 "bad key" "auth" "" none 0 .null).1
      (by decide)
    simpa using h,
   (C6_single_shot_error_classification 500 "" "" "boom" none 0 .null).2.2.1 (by decide),
   rfl, rfl,
   (C6_single_shot_error_classification 500 "" "" "" none 0 (.obj [])).2.2.2.2.2
     (Or.inl rfl) rfl⟩

/-- `str::split_once(";base64,")` recovers the exact parts of
`mime ++ ";base64," ++ payload` whenever the mime type contains no `';'`
(so no earlier occurrence of the separator can start inside it). -/
theorem splitOnceL_semi (sepRest mime payload : List Char) (h : ';' ∉ mime) :
    splitOnceL (';' :: sepRest) (mime ++ (';' :: sepRest) ++ payload) =
      some (mime, payload) := by
  induction mime with
  | nil =>
    have hpre : (';' :: sepRest).isPrefixOf (';' :: (sepRest ++ payload)) = true := by
      rw [← List.cons_append]
      exact List.isPrefixOf_iff_prefix.mpr ⟨payload, rfl⟩
    show splitOnceL (';' :: sepRest) ((';' :: sepRest) ++ payload) = some ([], payload)
    rw [List.cons_append]
    unfold splitOnceL
    rw [if_pos hpre]
    rw [← List.cons_append, List.drop_left]
  | cons c rest ih =>
    have hc : c ≠ ';' := fun hcc => h (hcc ▸ List.mem_cons_self c rest)
    have hrest : ';' ∉ rest := fun hm => h (List.mem_cons_of_mem c hm)
    show splitOnceL (';' :: sepRest) (c :: (rest ++ (';' :: sepRest) ++ payload)) =
      some (c :: rest, payload)
    unfold splitOnceL
    rw [if_neg]
    · rw [ih hrest]
    · intro hpre
      rcases List.isPrefixOf_iff_prefix.mp hpre with ⟨t, ht⟩
      have hhc : ';' = c := by
        have := congrArg (fun l => l.head?) ht
        simpa using this
      exact hc hhc.symm

/-- The inline-image classification recovers the mime type and the base64
payload of a well-formed `data:` URI exactly. -/
theorem dataUriParts_roundtrip (mime payload : String) (h : ';' ∉ mime.data) :
    dataUriParts ("data:" ++ mime ++ ";base64," ++ payload) = some (mime, payload) := by
  unfold dataUriParts
  have hdata : ("data:" ++ mime ++ ";base64," ++ payload).data =
      "data:".data ++ (mime.data ++ (';' :: "base64,".data) ++ payload.data) := by
    simp [String.data_append]
  rw [hdata]
  rw [if_pos (List.isPrefixOf_iff_prefix.mpr ⟨_, rfl⟩)]
  have hdrop : ("data:".data ++ (mime.data ++ (';' :: "base64,".data) ++ payload.data)).drop 5 =
      mime.data ++ (';' :: "base64,".data) ++ payload.data := by
    have h5 : (5 : Nat) = "data:".data.length := rfl
    rw [h5, List.drop_left]
  rw [hdrop]
  have hsep : ";base64,".data = ';' :: "base64,".data := rfl
  rw [hsep, splitOnceL_semi "base64,".data mime.data payload.data h]
  rfl

/-- C7 counterexample: Ollama's wire body for the inline image
`data:image/png;base64,AAAA` carries the payload but not the mime type — the
string `image/png` appears nowhere in the serialized body, so the claim that
every provider's body contains the mime type unchanged fails on Ollama. -/
theorem C7_counterexample_ollama_drops_mime :
    ollama_build_body
        ⟨[⟨.user, .array [.imageUrl "data:image/png;base64,AAAA"]⟩], none, none, false⟩
        ⟨"m", none, none⟩ =
      .ok (.obj [("model", .str "m"),
                 ("messages", .arr [.obj [("role", .str "user"), ("content", .str ""),
                                          ("images", .arr [.str "AAAA"])]]),
                 ("stream", .bool false), ("options", .obj [])]) ∧
    ¬ ("image/png".data <:+: (jsonStr (.obj [("model", .str "m"),
                 ("messages", .arr [.obj [("role", .str "user"), ("content", .str ""),
                                          ("images", .arr [.str "AAAA"])]]),
                 ("stream", .bool false), ("options", .obj [])])).data) :=
  ⟨rfl, by set_option maxRecDepth 10000 in decide⟩

/-- C7 (amended): for a content part whose url is
`data: ++ mime ++ ;base64, ++ payload` (mime free of `';'`), the
classification recovers `(mime, payload)` exactly, and the wire bodies of
Claude and VertexAI embed both strings unchanged in their image objects
(`source.media_type`/`source.data`, resp. `inline_data.mime_type`/`.data`);
Ollama's body carries only the payload, unchanged, in the message's `images`
array, discarding the mime type. -/
theorem C7_inline_image_preserved (mime payload : String) (mdl : Model)
    (h : ';' ∉ mime.data) :
    dataUriParts ("data:" ++ mime ++ ";base64," ++ payload) = some (mime, payload)
    ∧ claude_build_body
        ⟨[⟨.user, .array [.imageUrl ("data:" ++ mime ++ ";base64," ++ payload)]⟩],
         none, none, false⟩ mdl =
      .ok (.obj [("model", .str mdl.name),
                 ("max_tokens", .num (mdl.max_output_tokens.getD 4096)),
                 ("messages", .arr [.obj [("role", .str "user"), ("content", .arr
                   [.obj [("type", .str "image"),
                          ("source", .obj [("type", .str "base64"),
                                           ("media_type", .str mime),
                                           ("data", .str payload)])]])]])])
    ∧ (vertexai_build_body
        ⟨[⟨.user, .array [.imageUrl ("data:" ++ mime ++ ";base64," ++ payload)]⟩],
         none, none, false⟩ mdl none).map (fun b => b.get "contents") =
      .ok (.arr [.obj [("role", .str "user"), ("parts", .arr
        [.obj [("inline_data", .obj [("mime_type", .str mime), ("data", .str payload)])]])]])
    ∧ (ollama_build_body
        ⟨[⟨.user, .array [.imageUrl ("data:" ++ mime ++ ";base64," ++ payload)]⟩],
         none, none, false⟩ mdl).map (fun b => b.get "messages") =
      .ok (.arr [.obj [("role", .str "user"), ("content", .str ""),
                       ("images", .arr [.str payload])]]) := by
  refine ⟨dataUriParts_roundtrip mime payload h, ?_, ?_, ?_⟩
  · simp [claude_build_body, claude_part_json, network_image_urls, content_network_urls,
          part_network_url, extract_sytem_message, dataUriParts_roundtrip mime payload h,
          roleStr]
  · rcases mdl with ⟨n, mi, mo⟩
    cases mo <;>
      simp [vertexai_build_body, vertexai_part_json, vertexai_content_json, vertexai_role,
            network_image_urls, content_network_urls, part_network_url, patch_system_message,
            dataUriParts_roundtrip mime payload h, Json.setIn, Json.setKey, Json.get,
            Json.setField, List.lookup] <;> rfl
  · rcases mdl with ⟨n, mi, mo⟩
    cases mo <;>
      simp [ollama_build_body, ollama_message_json, ollama_scan_parts, ollama_network_urls,
            joinSep, dataUriParts_roundtrip mime payload h, Json.setIn, Json.setKey, Json.get,
            Json.setField, List.lookup, roleStr] <;> rfl

/-- Witness for C7 at mime `image/png`, payload `AAAA`. -/
theorem C7_inline_image_preserved_witness :
    (';' ∉ "image/png".data) ∧
    dataUriParts ("data:" ++ "image/png" ++ ";base64," ++ "AAAA") = some ("image/png", "AAAA") :=
  ⟨by decide,
   (C7_inline_image_preserved "image/png" "AAAA" ⟨"m", none, none⟩ (by decide)).1⟩

/-- The fragment (if any) one delivered SSE event contributes on Claude. -/
def claude_sse_text (e : SseEvent) : Option String :=
  match e with
  | .opened => none
  | .message d => claude_event_text d

/-- The fragment (if any) one delivered SSE event contributes on Ernie. -/
def ernie_sse_text (e : SseEvent) : Option String :=
  match e with
  | .opened => none
  | .message d => ernie_event_text d

theorem claude_stream_run_append (events : List SseEvent) (acc : List String) :
    claude_stream_run events acc = acc ++ events.filterMap claude_sse_text := by
  induction events generalizing acc with
  | nil => simp [claude_stream_run]
  | cons e rest ih =>
    cases e with
    | opened => simp [claude_stream_run, ih, claude_sse_text]
    | message d =>
      cases hd : claude_event_text d <;>
        simp [claude_stream_run, hd, ih, claude_sse_text]

theorem ernie_stream_run_append (events : List SseEvent) (acc : List String) :
    ernie_stream_run events acc = acc ++ events.filterMap ernie_sse_text := by
  induction events generalizing acc with
  | nil => simp [ernie_stream_run]
  | cons e rest ih =>
    cases e with
    | opened => simp [ernie_stream_run, ih, ernie_sse_text]
    | message d =>
      cases hd : ernie_event_text d <;>
        simp [ernie_stream_run, hd, ih, ernie_sse_text]

/-- C8: over any sequence of delivered SSE events, the sink receives exactly
the per-event extracted fragments, one call per event whose provider-specific
text path is present (Claude: type `content_block_delta` with a `delta.text`
string; Ernie: a string `result` field), in arrival order, and nothing for
events that carry no text — the sink transcript is the `filterMap` of the
extraction over the event list. -/
theorem C8_stream_sink_calls_in_order (events : List SseEvent) :
    claude_stream_run events [] = events.filterMap claude_sse_text
    ∧ ernie_stream_run events [] = events.filterMap ernie_sse_text :=
  ⟨by simpa using claude_stream_run_append events [],
   by simpa using ernie_stream_run_append events []⟩

/-- C9 counterexample: with no configured `max_output_tokens` on the model,
Ernie's wire body simply omits the field — it is not set to any fallback
constant (Claude is the only provider with a fallback, 4096). -/
theorem C9_counterexample_ernie_omits_field :
    (ernie_build_body ⟨[⟨.user, .text "hi"⟩], none, none, false⟩
        ⟨"ernie-4.0-8k", none, none⟩).hasKey "max_output_tokens" = false ∧
    (ernie_build_body ⟨[⟨.user, .text "hi"⟩], none, none, false⟩
        ⟨"ernie-4.0-8k", none, none⟩).get "max_output_tokens" = .null :=
  ⟨rfl, rfl⟩

/-- C9 (amended): Claude sets `max_tokens` to the model's configured value or
the fallback constant 4096 when absent; Ernie (`max_output_tokens`), VertexAI
(`generationConfig.maxOutputTokens`) and Ollama (`options.num_predict`) set
their field only when the model has a configured value and omit it
otherwise. -/
theorem C9_max_output_tokens_injection (mdl : Model) (m : String) :
    (claude_build_body ⟨[⟨.user, .text m⟩], none, none, false⟩ mdl).map
        (fun b => b.get "max_tokens") =
      .ok (.num (mdl.max_output_tokens.getD 4096))
    ∧ (ernie_build_body ⟨[⟨.user, .text m⟩], none, none, false⟩ mdl).get
        "max_output_tokens" = (mdl.max_output_tokens.map Json.num).getD .null
    ∧ (ernie_build_body ⟨[⟨.user, .text m⟩], none, none, false⟩ mdl).hasKey
        "max_output_tokens" = mdl.max_output_tokens.isSome
    ∧ (vertexai_build_body ⟨[⟨.user, .text m⟩], none, none, false⟩ mdl none).map
        (fun b => (b.get "generationConfig").get "maxOutputTokens") =
      .ok ((mdl.max_output_tokens.map Json.num).getD .null)
    ∧ (ollama_build_body ⟨[⟨.user, .text m⟩], none, none, false⟩ mdl).map
        (fun b => (b.get "options").get "num_predict") =
      .ok ((mdl.max_output_tokens.map Json.num).getD .null) := by
  rcases mdl with ⟨n, mi, mo⟩
  refine ⟨?_, ?_, ?_, ?_, ?_⟩ <;> cases mo <;> rfl

theorem ollama_scan_parts_texts (parts : List MessageContentPart) :
    (ollama_scan_parts parts).1 = parts.filterMap (fun p =>
      match p with
      | .text t => some t
      | .imageUrl _ => none) := by
  induction parts with
  | nil => rfl
  | cons p rest ih =>
    cases p with
    | text t => simp [ollama_scan_parts, ih]
    | imageUrl u =>
      cases hu : dataUriParts u <;> simp [ollama_scan_parts, hu, ih]

theorem ollama_scan_parts_images (parts : List MessageContentPart) :
    (ollama_scan_parts parts).2.1 = parts.filterMap (fun p =>
      match p with
      | .text _ => none
      | .imageUrl u => (dataUriParts u).map (fun q => q.2)) := by
  induction parts with
  | nil => rfl
  | cons p rest ih =>
    cases p with
    | text t => simp [ollama_scan_parts, ih]
    | imageUrl u =>
      cases hu : dataUriParts u <;> simp [ollama_scan_parts, hu, ih]

/-- C10: Ollama flattens an `Array` content: the wire message's `content` is
the text parts joined by a blank line, its `images` array is the inline-image
payloads with the mime types discarded, each in traversal order — and the
relative order of a text part and an inline image part is not represented:
swapping adjacent text and inline-image parts leaves the wire message
unchanged. -/
theorem C10_ollama_array_flattening (role : MessageRole)
    (parts rest : List MessageContentPart) (t u mime d : String) :
    ollama_message_json ⟨role, .array parts⟩ =
      .obj [("role", .str (roleStr role)),
            ("content", .str (joinSep "\n\n" (parts.filterMap (fun p =>
              match p with
              | .text s => some s
              | .imageUrl _ => none)))),
            ("images", .arr ((parts.filterMap (fun p =>
              match p with
              | .text _ => none
              | .imageUrl v => (dataUriParts v).map (fun q => q.2))).map Json.str))]
    ∧ (dataUriParts u = some (mime, d) →
      ollama_message_json ⟨role, .array (.text t :: .imageUrl u :: rest)⟩ =
        ollama_message_json ⟨role, .array (.imageUrl u :: .text t :: rest)⟩) := by
  constructor
  · rw [show ollama_message_json ⟨role, .array parts⟩ =
        .obj [("role", .str (roleStr role)),
              ("content", .str (joinSep "\n\n" (ollama_scan_parts parts).1)),
              ("images", .arr ((ollama_scan_parts parts).2.1.map Json.str))] from rfl]
    rw [ollama_scan_parts_texts, ollama_scan_parts_images]
  · intro h
    simp [ollama_message_json, ollama_scan_parts, h]

/-- Witness for C10 at a text part and a `data:` image part. -/
theorem C10_ollama_array_flattening_witness :
    dataUriParts "data:image/png;base64,QQ" = some ("image/png", "QQ") ∧
    ollama_message_json ⟨.user, .array [.text "hello",
        .imageUrl "data:image/png;base64,QQ"]⟩ =
      ollama_message_json ⟨.user, .array [.imageUrl "data:image/png;base64,QQ",
        .text "hello"]⟩ :=
  ⟨by decide,
   (C10_ollama_array_flattening .user [] [] "hello" "data:image/png;base64,QQ"
      "image/png" "QQ").2 (by decide)⟩

end Aichat
